import Mathlib

/-!
Verification development for the WhatsApp invoice-intake service
(`src/main.py`).  The file shallowly embeds:

* the regular-expression matching used by `extract_invoice_data`
  (a backtracking matcher with Python semantics for the constructs the
  patterns use: case-insensitive literals, character classes, greedy
  star/plus/bounded repetition, ordered alternation, optional groups,
  and a single capturing group; `re.search` tries start positions left
  to right and returns the first position where the backtracking match
  succeeds);
* `float` parsing restricted to the strings reachable from the amount
  capture group (digits and at most one dot after comma removal);
  amounts are modelled as float values that are either positive
  infinity — exactly when the decimal value reaches the double
  overflow threshold, as in CPython — or finite, the finite value kept
  as the exact rational;
* `datetime.strptime` for the six fixed date layouts, including the
  field regexes used by Python for %d, %m, %Y and calendar validation
  performed by `datetime.date`;
* `extract_invoice_data` itself, with the random uuid hex and the
  current date passed in as parameters;
* the `whatsapp_webhook` pipeline as a pure function over an
  environment of collaborator outcomes, returning the HTTP response
  together with the chronological list of observable side effects.

Unicode-only behaviours (Python case folding and non-ASCII whitespace
or digits) are modelled at ASCII granularity, which is faithful on the
ASCII pattern alphabet the source uses.
-/

namespace WhatsappInvoice

/-! ## Character classes (ASCII granularity) -/

/-- ASCII lower-casing, used for the case-insensitive literal matching
that `re.IGNORECASE` performs on the ASCII pattern alphabet. -/
def lcChar (c : Char) : Char :=
  if 'A' ≤ c && c ≤ 'Z' then Char.ofNat (c.toNat + 32) else c

/-- ASCII upper-casing, used for `.upper()` on the uuid hex. -/
def upChar (c : Char) : Char :=
  if 'a' ≤ c && c ≤ 'z' then Char.ofNat (c.toNat - 32) else c

/-- Python regex class `\s` (ASCII part). -/
def wsChar (c : Char) : Bool :=
  c = ' ' || c = '\t' || c = '\n' || c = '\r' || c = Char.ofNat 11 || c = Char.ofNat 12

/-- Python regex class `\d` (ASCII part). -/
def digitChar (c : Char) : Bool := c.isDigit

/-- Class `[A-Z0-9\-]` under `re.IGNORECASE` (so lowercase letters match too). -/
def idChar (c : Char) : Bool :=
  ('A' ≤ c && c ≤ 'Z') || ('a' ≤ c && c ≤ 'z') || c.isDigit || c = '-'

/-- Class `[0-9,]`. -/
def amtChar (c : Char) : Bool := c.isDigit || c = ','

/-- Class of the currency symbols appearing in the amount patterns. -/
def curChar (c : Char) : Bool := c = '$' || c = '£' || c = '€' || c = '₹'

/-- Class `[\/\-\.]` of date separators. -/
def sepChar (c : Char) : Bool := c = '/' || c = '-' || c = '.'

/-! ## A small regex AST covering the constructs used in main.py -/

/-- Abstract syntax of the regular expressions used by
`extract_invoice_data`.  `lit` is a case-insensitive literal, `cls` a
single character from a class, `clsStar`, `clsPlus`, `clsRep` are the
greedy repetitions of a class, `opt` is a greedy `(?:...)?`, `alt` an
ordered alternation, and `group` the single capturing group. -/
inductive RE where
  | eps
  | lit (cs : List Char)
  | cls (p : Char → Bool)
  | clsStar (p : Char → Bool)
  | clsPlus (p : Char → Bool)
  | clsRep (p : Char → Bool) (lo hi : Nat)
  | opt (r : RE)
  | alt (r₁ r₂ : RE)
  | seq (r₁ r₂ : RE)
  | group (r : RE)

/-- Case-insensitive literal prefix test. -/
def litMatch : List Char → List Char → Bool
  | [], _ => true
  | _ :: _, [] => false
  | c :: cs, d :: ds => (lcChar c == lcChar d) && litMatch cs ds

/-- Length of the maximal prefix of `s` inside class `p`. -/
def countWhile (p : Char → Bool) (s : List Char) : Nat :=
  (s.takeWhile p).length

/-- Greedy backtracking over how many class characters a repetition
consumes: try `c` characters first, then `c - 1`, ..., down to `lo`. -/
def tryCounts (k : List Char → Option (List Char)) (s : List Char) (lo : Nat) (c : Nat) :
    Option (List Char) :=
  if _h : c ≤ lo then k (s.drop lo)
  else (k (s.drop c)) <|> tryCounts k s lo (c - 1)
termination_by c
decreasing_by omega

/-- Backtracking matcher in continuation-passing style.  `cap` is the
content of the capturing group recorded so far; the continuation
receives the updated capture and the remaining input.  Alternatives
are tried in order and repetitions greedily, as in Python `re`. -/
def mrun : RE → List Char → Option (List Char) →
    (Option (List Char) → List Char → Option (List Char)) → Option (List Char)
  | RE.eps, s, cap, k => k cap s
  | RE.lit cs, s, cap, k => if litMatch cs s then k cap (s.drop cs.length) else none
  | RE.cls p, s, cap, k =>
      match s with
      | [] => none
      | c :: rest => if p c then k cap rest else none
  | RE.clsStar p, s, cap, k => tryCounts (k cap) s 0 (countWhile p s)
  | RE.clsPlus p, s, cap, k =>
      if countWhile p s = 0 then none else tryCounts (k cap) s 1 (countWhile p s)
  | RE.clsRep p lo hi, s, cap, k =>
      if min (countWhile p s) hi < lo then none
      else tryCounts (k cap) s lo (min (countWhile p s) hi)
  | RE.opt r, s, cap, k => mrun r s cap k <|> k cap s
  | RE.alt r₁ r₂, s, cap, k => mrun r₁ s cap k <|> mrun r₂ s cap k
  | RE.seq r₁ r₂, s, cap, k => mrun r₁ s cap (fun cap₁ s₁ => mrun r₂ s₁ cap₁ k)
  | RE.group r, s, cap, k =>
      mrun r s cap (fun _ s₁ => k (some (s.take (s.length - s₁.length))) s₁)

/-- Model of `re.search` with a single capturing group: try each start position
left to right, and at the first position where the whole pattern
matches return the text captured by the group
(this models `match.group(1)`). -/
def research (r : RE) (s : List Char) : Option (List Char) :=
  match mrun r s none (fun cap _ => some (cap.getD [])) with
  | some tok => some tok
  | none =>
    match s with
    | [] => none
    | _ :: rest => research r rest

/-! ## The concrete patterns of extract_invoice_data -/

/-- Right-nested sequencing of a pattern list. -/
def seqs : List RE → RE
  | [] => RE.eps
  | r :: rs => RE.seq r (seqs rs)

/-- Literal built from a string. -/
def lit (s : String) : RE := RE.lit s.data

/-- The `\s*` fragment. -/
def ws : RE := RE.clsStar wsChar

/-- The `:?` fragment. -/
def colonQ : RE := RE.opt (RE.cls (fun c => c = ':'))

/-- The `\.?` fragment. -/
def dotQ : RE := RE.opt (RE.cls (fun c => c = '.'))

/-- The capture `([A-Z0-9\-]+)`. -/
def invoiceIdTok : RE := RE.group (RE.clsPlus idChar)

/-- Regex `invoice\s*(?:no\.?|number|#)\s*:?\s*([A-Z0-9\-]+)`. -/
def invoicePat1 : RE :=
  seqs [lit "invoice", ws,
        RE.alt (RE.seq (lit "no") dotQ) (RE.alt (lit "number") (lit "#")),
        ws, colonQ, ws, invoiceIdTok]

/-- Regex `inv\s*(?:no\.?|#)\s*:?\s*([A-Z0-9\-]+)`. -/
def invoicePat2 : RE :=
  seqs [lit "inv", ws,
        RE.alt (RE.seq (lit "no") dotQ) (lit "#"),
        ws, colonQ, ws, invoiceIdTok]

/-- Regex `bill\s*(?:no\.?|number|#)\s*:?\s*([A-Z0-9\-]+)`. -/
def invoicePat3 : RE :=
  seqs [lit "bill", ws,
        RE.alt (RE.seq (lit "no") dotQ) (RE.alt (lit "number") (lit "#")),
        ws, colonQ, ws, invoiceIdTok]

/-- Regex `reference\s*(?:no\.?|number|#)\s*:?\s*([A-Z0-9\-]+)`. -/
def invoicePat4 : RE :=
  seqs [lit "reference", ws,
        RE.alt (RE.seq (lit "no") dotQ) (RE.alt (lit "number") (lit "#")),
        ws, colonQ, ws, invoiceIdTok]

/-- The invoice-id patterns in source order. -/
def invoicePatterns : List RE := [invoicePat1, invoicePat2, invoicePat3, invoicePat4]

/-- The capture `([0-9,]+\.?\d*)`. -/
def amountTok : RE :=
  RE.group (seqs [RE.clsPlus amtChar, dotQ, RE.clsStar digitChar])

/-- The `[$£€₹]?` fragment. -/
def curQ : RE := RE.opt (RE.cls curChar)

/-- Regex `total\s*(?:amount)?\s*:?\s*[$£€₹]?\s*([0-9,]+\.?\d*)`. -/
def amountPat1 : RE :=
  seqs [lit "total", ws, RE.opt (lit "amount"), ws, colonQ, ws, curQ, ws, amountTok]

/-- Regex `amount\s*(?:due|total)?\s*:?\s*[$£€₹]?\s*([0-9,]+\.?\d*)`. -/
def amountPat2 : RE :=
  seqs [lit "amount", ws, RE.opt (RE.alt (lit "due") (lit "total")), ws, colonQ, ws,
        curQ, ws, amountTok]

/-- Regex `grand\s*total\s*:?\s*[$£€₹]?\s*([0-9,]+\.?\d*)`. -/
def amountPat3 : RE :=
  seqs [lit "grand", ws, lit "total", ws, colonQ, ws, curQ, ws, amountTok]

/-- Regex `balance\s*(?:due)?\s*:?\s*[$£€₹]?\s*([0-9,]+\.?\d*)`. -/
def amountPat4 : RE :=
  seqs [lit "balance", ws, RE.opt (lit "due"), ws, colonQ, ws, curQ, ws, amountTok]

/-- Regex `[$£€₹]\s*([0-9,]+\.?\d*)\s*(?:total|due|balance)`. -/
def amountPat5 : RE :=
  seqs [RE.cls curChar, ws, amountTok, ws,
        RE.alt (lit "total") (RE.alt (lit "due") (lit "balance"))]

/-- The amount patterns in source order. -/
def amountPatterns : List RE :=
  [amountPat1, amountPat2, amountPat3, amountPat4, amountPat5]

/-- The capture `(\d{1,2}[\/\-\.]\d{1,2}[\/\-\.]\d{2,4})`. -/
def dateTok : RE :=
  RE.group (seqs [RE.clsRep digitChar 1 2, RE.cls sepChar,
                  RE.clsRep digitChar 1 2, RE.cls sepChar,
                  RE.clsRep digitChar 2 4])

/-- Regex `due\s*(?:date|by)?\s*:?\s*(\d{1,2}[\/\-\.]\d{1,2}[\/\-\.]\d{2,4})`. -/
def datePat1 : RE :=
  seqs [lit "due", ws, RE.opt (RE.alt (lit "date") (lit "by")), ws, colonQ, ws, dateTok]

/-- Regex `payment\s*due\s*:?\s*(\d{1,2}[\/\-\.]\d{1,2}[\/\-\.]\d{2,4})`. -/
def datePat2 : RE :=
  seqs [lit "payment", ws, lit "due", ws, colonQ, ws, dateTok]

/-- Regex `payable\s*by\s*:?\s*(\d{1,2}[\/\-\.]\d{1,2}[\/\-\.]\d{2,4})`. -/
def datePat3 : RE :=
  seqs [lit "payable", ws, lit "by", ws, colonQ, ws, dateTok]

/-- Regex `due\s*on\s*:?\s*(\d{1,2}[\/\-\.]\d{1,2}[\/\-\.]\d{2,4})`. -/
def datePat4 : RE :=
  seqs [lit "due", ws, lit "on", ws, colonQ, ws, dateTok]

/-- The due-date patterns in source order. -/
def datePatterns : List RE := [datePat1, datePat2, datePat3, datePat4]

/-! ## Numeric parsing (Python float on the reachable amount strings) -/

/-- Value of a decimal digit string (the value `int`/`float` assign to
its integral part). -/
def digitsVal : List Char → Nat
  | [] => 0
  | c :: cs => (c.toNat - 48) * 10 ^ cs.length + digitsVal cs

/-- Split a character list at every occurrence of `sep`
(Python `str.split(sep)`: always returns at least one chunk). -/
def splitSep (sep : Char) : List Char → List (List Char)
  | [] => [[]]
  | c :: rest =>
    if c = sep then [] :: splitSep sep rest
    else
      match splitSep sep rest with
      | [] => [[c]]
      | h :: t => (c :: h) :: t

/-- A CPython float value as far as the amount capture can produce
one: a finite value or positive infinity.  No sign or exponent occurs
in the captured strings, so negative values, minus infinity and nan
are unreachable. -/
inductive PyFloat where
  | finite (q : ℚ)
  | inf
deriving DecidableEq

/-- Non-negativity of a float value; positive infinity counts as
non-negative. -/
def PyFloat.Nonneg : PyFloat → Prop
  | .finite q => 0 ≤ q
  | .inf => True

/-- The exact overflow threshold of a correctly-rounded IEEE-754
double under round-to-nearest-even: a decimal value turns into
positive infinity exactly when it reaches the midpoint between the
largest finite double and two to the 1024. -/
def dblOverflow (q : ℚ) : Bool :=
  ((2 ^ 1024 - 2 ^ 970 : Nat) : ℚ) ≤ q

/-- Python `float()` restricted to the strings reachable from the
amount capture group after comma removal: digit runs with at most one
dot.  `float` fails exactly when no digit is present; it returns
positive infinity exactly when the decimal value reaches the double
overflow threshold (CPython parses decimal strings with correct
rounding and returns inf rather than raising); below the threshold the
value is modelled as the exact rational rather than the nearest
double. -/
def pyFloat (s : List Char) : Option PyFloat :=
  match splitSep '.' s with
  | [a] =>
    if !a.isEmpty && a.all digitChar then
      some (if dblOverflow (digitsVal a) then PyFloat.inf else PyFloat.finite (digitsVal a))
    else none
  | [a, b] =>
    if (!a.isEmpty || !b.isEmpty) && a.all digitChar && b.all digitChar then
      some (if dblOverflow ((digitsVal a : ℚ) + (digitsVal b : ℚ) / (10 : ℚ) ^ b.length)
            then PyFloat.inf
            else PyFloat.finite ((digitsVal a : ℚ) + (digitsVal b : ℚ) / (10 : ℚ) ^ b.length))
    else none
  | _ => none

/-! ## Date parsing (strptime with the six fixed layouts) -/

/-- The field regex Python strptime uses for %d
(`3[01]|[12]\d|0[1-9]|[1-9]`) and %m (`1[0-2]|0[1-9]|[1-9]`), applied
to a whole field: one digit with value 1-9, or two digits with value
between 1 and `maxv`. -/
def parseField (maxv : Nat) (s : List Char) : Option Nat :=
  if s.all digitChar && (s.length = 1 || s.length = 2)
      && 1 ≤ digitsVal s && digitsVal s ≤ maxv then
    some (digitsVal s)
  else none

/-- The field regex for %Y (`\d\d\d\d`): exactly four digits. -/
def parseYear4 (s : List Char) : Option Nat :=
  if s.all digitChar && s.length = 4 then some (digitsVal s) else none

/-- Gregorian leap year, as in Python datetime. -/
def isLeap (y : Nat) : Bool :=
  y % 4 = 0 && (y % 100 ≠ 0 || y % 400 = 0)

/-- Length of a month, as in Python datetime. -/
def daysInMonth (y m : Nat) : Nat :=
  if m = 2 then (if isLeap y then 29 else 28)
  else if m = 4 || m = 6 || m = 9 || m = 11 then 30
  else 31

/-- The validation `datetime.date(y, m, d)` performs
(MINYEAR 1, MAXYEAR 9999, month 1-12, day within the month). -/
def validYMD (y m d : Nat) : Bool :=
  1 ≤ y && y ≤ 9999 && 1 ≤ m && m ≤ 12 && 1 ≤ d && d ≤ daysInMonth y m

/-- A calendar date as produced by `datetime.date`. -/
structure PDate where
  year : Nat
  month : Nat
  day : Nat
deriving DecidableEq

/-- A `PDate` is valid when `datetime.date` would accept its fields. -/
def PDate.Valid (d : PDate) : Prop := validYMD d.year d.month d.day = true

instance (d : PDate) : Decidable d.Valid := by
  unfold PDate.Valid; infer_instance

/-- Model of `datetime.strptime(tok, fmt).date()` for one of the six layouts:
the separator must occur exactly twice, the day/month fields must match
the strptime field regexes, the year must be exactly four digits, and
the resulting triple must form a valid calendar date. -/
def parseDateFmt (sep : Char) (dayFirst : Bool) (tok : List Char) : Option PDate :=
  match splitSep sep tok with
  | [f1, f2, f3] =>
    match parseField 31 (if dayFirst then f1 else f2),
          parseField 12 (if dayFirst then f2 else f1),
          parseYear4 f3 with
    | some d, some m, some y => if validYMD y m d then some ⟨y, m, d⟩ else none
    | _, _, _ => none
  | _ => none

/-- The ordered format list
`['%d/%m/%Y','%m/%d/%Y','%d-%m-%Y','%m-%d-%Y','%d.%m.%Y','%m.%d.%Y']`,
as separator plus day-first flag. -/
def dateFormats : List (Char × Bool) :=
  [('/', true), ('/', false), ('-', true), ('-', false), ('.', true), ('.', false)]

/-- Try the formats in order, keeping the first that parses. -/
def strptimeFmts : List (Char × Bool) → List Char → Option PDate
  | [], _ => none
  | (sep, df) :: rest, tok =>
    match parseDateFmt sep df tok with
    | some d => some d
    | none => strptimeFmts rest tok

/-- The inner format loop of the due-date extraction. -/
def strptimeList (tok : List Char) : Option PDate := strptimeFmts dateFormats tok

/-! ## The three extraction loops of extract_invoice_data -/

/-- First pattern in the list whose search succeeds, returning the
captured token (the invoice-id loop breaks at the first regex match). -/
def findFirstTok : List RE → List Char → Option (List Char)
  | [], _ => none
  | p :: ps, s =>
    match research p s with
    | some tok => some tok
    | none => findFirstTok ps s

/-- The amount loop: on a regex match, strip commas and try `float`;
on a parse failure continue with the next pattern. -/
def findAmount : List RE → List Char → Option PyFloat
  | [], _ => none
  | p :: ps, s =>
    match research p s with
    | some tok =>
      match pyFloat (tok.filter (fun c => c ≠ ',')) with
      | some q => some q
      | none => findAmount ps s
    | none => findAmount ps s

/-- The due-date loop: on a regex match, try the six formats in order;
if none parses continue with the next pattern. -/
def findDate : List RE → List Char → Option PDate
  | [], _ => none
  | p :: ps, s =>
    match research p s with
    | some tok =>
      match strptimeList tok with
      | some d => some d
      | none => findDate ps s
    | none => findDate ps s

/-- Python `str.strip()` (ASCII whitespace granularity). -/
def pyStrip (l : List Char) : List Char :=
  ((l.dropWhile wsChar).reverse.dropWhile wsChar).reverse

/-- The synthesized fallback id: the fixed INV- stem followed by the
first eight characters of the random uuid4 hex, upper-cased; the
random hex is passed in as a parameter. -/
def synthInvoiceId (uuidHex : String) : List Char :=
  "INV-".data ++ (uuidHex.data.take 8).map upChar

/-- Shallow embedding of `extract_invoice_data` (src/main.py lines
31-126).  The random uuid hex digits and the processing date
(`datetime.now().date()`) are passed in as parameters; everything else
follows the source: first matching invoice pattern wins (token
stripped), empty or missing id falls back to the synthesized id, the
amount defaults to 0.00 and the due date to the processing date. -/
def extract_invoice_data (text : String) (uuidHex : String) (today : PDate) :
    String × PyFloat × PDate :=
  (String.mk
    (match (findFirstTok invoicePatterns text.data).map pyStrip with
     | some t => if t.isEmpty then synthInvoiceId uuidHex else t
     | none => synthInvoiceId uuidHex),
   (findAmount amountPatterns text.data).getD (PyFloat.finite 0),
   (findDate datePatterns text.data).getD today)

/-! ## The webhook pipeline (whatsapp_webhook, src/main.py lines 197-309) -/

/-- Python truthiness of an optional string: `not x` holds when the
value is absent (None) or the empty string.  Used for the `MediaUrl0`
check and the credential checks. -/
def falsy : Option String → Bool
  | none => true
  | some s => s = ""

/-- The scratch filename: the fixed /tmp/invoice_ stem, the random
uuid4 hex (passed in as a parameter), and the .file extension. -/
def scratchName (uuidHex : String) : String :=
  "/tmp/invoice_" ++ uuidHex ++ ".file"

/-- Decimal rendering of `n` zero-padded to width `w` (as in the ISO
rendering of a date). -/
def padNum (w n : Nat) : String :=
  String.mk (List.replicate (w - (toString n).length) '0') ++ toString n

/-- Python rendering of a date, ISO `YYYY-MM-DD`. -/
def pdateStr (d : PDate) : String :=
  padNum 4 d.year ++ "-" ++ padNum 2 d.month ++ "-" ++ padNum 2 d.day

/-- The flattening of the OCR fragments: the non-empty fragments,
joined with single spaces, in recognition order. -/
def ocrJoin (ls : List String) : String :=
  String.intercalate " " (ls.filter (fun f => f ≠ ""))

/-- Shallow embedding of `save_invoice` (src/main.py lines 128-163).
The function catches every exception and reports success or failure as
a boolean.  `psycopg2.connect` with an absent or empty `DATABASE_URL`
raises inside the `try`, so the call reports failure; otherwise the
outcome of the insert/commit is supplied by the environment. -/
def save_invoice (databaseUrl : Option String) (dbWriteOk : Bool) : Bool :=
  if falsy databaseUrl then false else dbWriteOk

/-- Shallow embedding of `send_confirmation` (src/main.py lines
165-195): every Twilio or unexpected error is caught and the call
reports success or failure as a boolean supplied by the environment. -/
def send_confirmation (notifyOk : Bool) : Bool := notifyOk

/-- One inbound request together with the outcomes of every external
collaborator, pure data over which the pipeline is replayed. -/
structure Env where
  mediaUrl : Option String
  sender : String
  twilioSid : Option String
  twilioToken : Option String
  databaseUrl : Option String
  downloadOk : Bool
  ocrResult : Option (List String)
  dbWriteOk : Bool
  notifyOk : Bool
  cleanupOk : Bool
  fileUuid : String
  invUuid : String
  today : PDate

/-- The JSON responses the endpoint can produce. -/
inductive Resp where
  | err (status : Nat) (msg : String)
  | success (invoiceId : String) (totalAmount : PyFloat) (dueDate : String)
deriving DecidableEq

/-- Observable side effects of one request, in chronological order.
`scratchNamed` is the generation of the unique scratch filename,
`download` the outbound media fetch, `fileWrite` the write of the
scratch file, `ocr` the recognition call, `dbSave` the persistence
call, `notify` the confirmation call, and `cleanup` the `finally`
removal attempt with its outcome. -/
inductive Ev where
  | scratchNamed (fname : String)
  | download
  | fileWrite
  | ocr
  | dbSave
  | notify
  | cleanup (fname : String) (ok : Bool)
deriving DecidableEq

/-- The body of the `try` block of `whatsapp_webhook`: credential
check, download, OCR, extraction, persistence, notification. -/
def webhookTry (env : Env) : Resp × List Ev :=
  if falsy env.twilioSid || falsy env.twilioToken then
    (Resp.err 500 "Server configuration error. Please contact support.", [])
  else if !env.downloadOk then
    (Resp.err 400 "Failed to download the media file. Please check the file and try again.",
     [Ev.download])
  else
    match env.ocrResult with
    | none =>
      (Resp.err 400 "Could not extract text from the image. Please ensure the image is clear and contains readable text.",
       [Ev.download, Ev.fileWrite, Ev.ocr])
    | some ls =>
      if ls.isEmpty then
        (Resp.err 400 "Could not extract text from the image. Please ensure the image is clear and contains readable text.",
         [Ev.download, Ev.fileWrite, Ev.ocr])
      else
        let r := extract_invoice_data (ocrJoin ls) env.invUuid env.today
        if !save_invoice env.databaseUrl env.dbWriteOk then
          (Resp.err 500 "Failed to save invoice data to database. Please try again later.",
           [Ev.download, Ev.fileWrite, Ev.ocr, Ev.dbSave])
        else
          let _ := send_confirmation env.notifyOk
          (Resp.success r.1 r.2.1 (pdateStr r.2.2),
           [Ev.download, Ev.fileWrite, Ev.ocr, Ev.dbSave, Ev.notify])

/-- Shallow embedding of the endpoint `whatsapp_webhook` (src/main.py
lines 197-309).  A missing or empty media reference is rejected before
the scratch filename is generated and before the `try` block; any
other path generates the unique scratch filename, runs the `try` body
and always appends the `finally` cleanup attempt, whose outcome is
caught and logged without touching the response. -/
def whatsapp_webhook (env : Env) : Resp × List Ev :=
  if falsy env.mediaUrl then
    (Resp.err 400 "No media found in the message.", [])
  else
    let fname := scratchName env.fileUuid
    let r := webhookTry env
    (r.1, Ev.scratchNamed fname :: r.2 ++ [Ev.cleanup fname env.cleanupOk])

/-! ## Supporting lemmas -/

theorem pyFloat_nonneg (s : List Char) (f : PyFloat) (h : pyFloat s = some f) :
    f.Nonneg := by
  unfold pyFloat at h
  split at h
  · split at h
    · simp only [Option.some.injEq] at h
      subst h
      split
      · trivial
      · show (0 : ℚ) ≤ _
        exact_mod_cast Nat.zero_le _
    · exact absurd h (by simp)
  · split at h
    · simp only [Option.some.injEq] at h
      subst h
      split
      · trivial
      · show (0 : ℚ) ≤ _
        positivity
    · exact absurd h (by simp)
  · exact absurd h (by simp)

theorem findAmount_nonneg (pats : List RE) (s : List Char) (f : PyFloat)
    (h : findAmount pats s = some f) : f.Nonneg := by
  induction pats with
  | nil => exact absurd h (by simp [findAmount])
  | cons p ps ih =>
    unfold findAmount at h
    split at h
    · split at h
      · simp only [Option.some.injEq] at h
        subst h
        exact pyFloat_nonneg _ _ (by assumption)
      · exact ih h
    · exact ih h

theorem parseDateFmt_valid (sep : Char) (df : Bool) (tok : List Char) (d : PDate)
    (h : parseDateFmt sep df tok = some d) : d.Valid := by
  unfold parseDateFmt at h
  split at h
  · split at h
    · split at h
      · simp only [Option.some.injEq] at h
        subst h
        assumption
      · exact absurd h (by simp)
    · exact absurd h (by simp)
  · exact absurd h (by simp)

theorem strptimeFmts_valid (fmts : List (Char × Bool)) (tok : List Char) (d : PDate)
    (h : strptimeFmts fmts tok = some d) : d.Valid := by
  induction fmts with
  | nil => exact absurd h (by simp [strptimeFmts])
  | cons f fs ih =>
    unfold strptimeFmts at h
    split at h
    · simp only [Option.some.injEq] at h
      subst h
      exact parseDateFmt_valid _ _ _ _ (by assumption)
    · exact ih h

theorem strptimeList_valid (tok : List Char) (d : PDate)
    (h : strptimeList tok = some d) : d.Valid :=
  strptimeFmts_valid _ _ _ h

theorem findDate_valid (pats : List RE) (s : List Char) (d : PDate)
    (h : findDate pats s = some d) : d.Valid := by
  induction pats with
  | nil => exact absurd h (by simp [findDate])
  | cons p ps ih =>
    unfold findDate at h
    split at h
    · split at h
      · simp only [Option.some.injEq] at h
        subst h
        exact strptimeList_valid _ _ (by assumption)
      · exact ih h
    · exact ih h

theorem synthInvoiceId_ne_nil (u : String) : synthInvoiceId u ≠ [] := by
  unfold synthInvoiceId
  intro h
  exact absurd (List.append_eq_nil.mp h).1 (by decide)

theorem mk_ne_empty_of_ne_nil (l : List Char) (h : l ≠ []) : String.mk l ≠ "" := by
  intro hc
  exact h (congrArg String.data hc)

/-! ## Claims -/

set_option maxRecDepth 200000
set_option exponentiation.threshold 2048

/-- C1 counterexample: CPython float returns positive infinity rather
than raising on an overflowing digit string, and a 309-digit amount is
reachable through the amount capture; on the text consisting of the
Total label followed by 309 nines the extractor returns an infinite
totalAmount, refuting the claim that totalAmount is always finite. -/
theorem c1_amount_overflow_counterexample :
    (extract_invoice_data ("Total: " ++ String.mk (List.replicate 309 '9'))
      "ab12cd34" ⟨2025, 10, 12⟩).2.1 = PyFloat.inf := by
  with_unfolding_all decide

/-- C1 (amended): for every input text, random uuid hex and (valid)
processing date, the extractor returns without error a fully-populated
record: the invoice id is a non-empty string (captured or synthesized
with the fixed prefix), the total amount is a non-negative float value
— finite except when the captured decimal reaches the double overflow
threshold, in which case it is positive infinity — defaulting to 0.00
when no amount pattern yields a parseable number, and the due date is
a valid calendar date defaulting to the processing date. -/
theorem c1_extractor_totality (text uuidHex : String) (today : PDate)
    (htoday : today.Valid) :
    (extract_invoice_data text uuidHex today).1 ≠ "" ∧
    ((extract_invoice_data text uuidHex today).2.1).Nonneg ∧
    ((extract_invoice_data text uuidHex today).2.2).Valid ∧
    (findAmount amountPatterns text.data = none →
      (extract_invoice_data text uuidHex today).2.1 = PyFloat.finite 0) ∧
    (findDate datePatterns text.data = none →
      (extract_invoice_data text uuidHex today).2.2 = today) := by
  refine ⟨?_, ?_, ?_, ?_, ?_⟩
  · show String.mk _ ≠ ""
    apply mk_ne_empty_of_ne_nil
    cases hid : (findFirstTok invoicePatterns text.data).map pyStrip with
    | none => simp only [hid]; exact synthInvoiceId_ne_nil _
    | some t =>
      simp only [hid]
      by_cases ht : t.isEmpty
      · simp only [ht, if_true]; exact synthInvoiceId_ne_nil _
      · simp only [ht, if_false]
        simpa [List.isEmpty_iff] using ht
  · show ((findAmount amountPatterns text.data).getD (PyFloat.finite 0)).Nonneg
    cases ha : findAmount amountPatterns text.data with
    | none =>
      show ((none : Option PyFloat).getD (PyFloat.finite 0)).Nonneg
      show (0 : ℚ) ≤ 0
      exact le_refl 0
    | some f => simpa using findAmount_nonneg _ _ _ ha
  · show ((findDate datePatterns text.data).getD today).Valid
    cases hd : findDate datePatterns text.data with
    | none => simpa using htoday
    | some d => simpa using findDate_valid _ _ _ hd
  · intro h
    show (findAmount amountPatterns text.data).getD (PyFloat.finite 0) = PyFloat.finite 0
    simp [h]
  · intro h
    show (findDate datePatterns text.data).getD today = today
    simp [h]

/-- Witness for the amended C1 at a concrete input. -/
theorem c1_extractor_totality_witness :
    (PDate.mk 2025 10 12).Valid ∧
    ((extract_invoice_data "" "ab12cd34" ⟨2025, 10, 12⟩).1 ≠ "" ∧
     ((extract_invoice_data "" "ab12cd34" ⟨2025, 10, 12⟩).2.1).Nonneg ∧
     ((extract_invoice_data "" "ab12cd34" ⟨2025, 10, 12⟩).2.2).Valid ∧
     (findAmount amountPatterns "".data = none →
       (extract_invoice_data "" "ab12cd34" ⟨2025, 10, 12⟩).2.1 = PyFloat.finite 0) ∧
     (findDate datePatterns "".data = none →
       (extract_invoice_data "" "ab12cd34" ⟨2025, 10, 12⟩).2.2 = ⟨2025, 10, 12⟩)) :=
  ⟨by decide, c1_extractor_totality "" "ab12cd34" ⟨2025, 10, 12⟩ (by decide)⟩

/-- Environment of end-to-end scenario A: valid media reference,
credentials present, download succeeds, recognition returns exactly
the scenario text, persistence and notification both succeed. -/
def envA : Env where
  mediaUrl := some "https://api.twilio.com/media/img1"
  sender := "whatsapp:+15551230000"
  twilioSid := some "AC0001"
  twilioToken := some "authtoken"
  databaseUrl := some "postgresql://invoices"
  downloadOk := true
  ocrResult := some ["Invoice #INV-55 Total Due: $250.00 Due by 01/05/2025"]
  dbWriteOk := true
  notifyOk := true
  cleanupOk := true
  fileUuid := "0f0f0f0f"
  invUuid := "ab12cd34"
  today := ⟨2025, 10, 12⟩

/-- C2: on scenario A the endpoint answers success with invoice id
INV-55, total amount 250.00 (a finite float value, exact at this
input) and due date 2025-05-01 (the token 01/05/2025 read
day-first). -/
theorem c2_scenarioA :
    (whatsapp_webhook envA).1 =
      Resp.success "INV-55" (PyFloat.finite 250) "2025-05-01" := by
  with_unfolding_all decide

/-- C3: whenever the media check passes (so the scratch filename is
generated), the event trace is the scratch naming, then the try-block
events, and ends with the cleanup attempt for exactly that filename —
on success and on every abort alike — and flipping the cleanup outcome
never changes the response. -/
theorem c3_cleanup_always (env : Env) (b : Bool) (h : falsy env.mediaUrl = false) :
    (whatsapp_webhook env).2 =
      Ev.scratchNamed (scratchName env.fileUuid) :: (webhookTry env).2
        ++ [Ev.cleanup (scratchName env.fileUuid) env.cleanupOk] ∧
    (whatsapp_webhook { env with cleanupOk := b }).1 = (whatsapp_webhook env).1 := by
  constructor
  · unfold whatsapp_webhook
    simp [h]
  · unfold whatsapp_webhook webhookTry
    simp [h]

/-- Witness for C3 at a concrete input. -/
theorem c3_cleanup_always_witness :
    falsy envA.mediaUrl = false ∧
    ((whatsapp_webhook envA).2 =
      Ev.scratchNamed (scratchName envA.fileUuid) :: (webhookTry envA).2
        ++ [Ev.cleanup (scratchName envA.fileUuid) envA.cleanupOk] ∧
     (whatsapp_webhook { envA with cleanupOk := false }).1 = (whatsapp_webhook envA).1) :=
  ⟨by decide, c3_cleanup_always envA false (by decide)⟩

/-- C4: when a run reaches the persistence gateway (media, credentials,
download and recognition all pass) and the gateway reports failure, the
response is the 500 persistence error and the notification gateway is
never invoked. -/
theorem c4_persistence_failure (env : Env) (ls : List String)
    (hm : falsy env.mediaUrl = false)
    (hs : falsy env.twilioSid = false) (ht : falsy env.twilioToken = false)
    (hd : env.downloadOk = true) (ho : env.ocrResult = some ls)
    (hne : ls.isEmpty = false)
    (hdb : save_invoice env.databaseUrl env.dbWriteOk = false) :
    (whatsapp_webhook env).1 =
      Resp.err 500 "Failed to save invoice data to database. Please try again later." ∧
    Ev.notify ∉ (whatsapp_webhook env).2 := by
  unfold whatsapp_webhook webhookTry
  simp [hm, hs, ht, hd, ho, hne, hdb]

/-- Witness for C4 at a concrete input. -/
theorem c4_persistence_failure_witness :
    falsy ({ envA with dbWriteOk := false } : Env).mediaUrl = false ∧
    save_invoice ({ envA with dbWriteOk := false } : Env).databaseUrl
      ({ envA with dbWriteOk := false } : Env).dbWriteOk = false ∧
    ((whatsapp_webhook { envA with dbWriteOk := false }).1 =
      Resp.err 500 "Failed to save invoice data to database. Please try again later." ∧
     Ev.notify ∉ (whatsapp_webhook { envA with dbWriteOk := false }).2) :=
  ⟨by decide, by decide,
   c4_persistence_failure { envA with dbWriteOk := false }
     ["Invoice #INV-55 Total Due: $250.00 Due by 01/05/2025"]
     (by decide) (by decide) (by decide) (by decide) (by decide) (by decide) (by decide)⟩

/-- C5: when persistence succeeds but the notification gateway fails,
the response is still the success payload carrying the extracted
record, and flipping the notification outcome never changes the
response. -/
theorem c5_notification_failure (env : Env) (ls : List String) (b : Bool)
    (hm : falsy env.mediaUrl = false)
    (hs : falsy env.twilioSid = false) (ht : falsy env.twilioToken = false)
    (hd : env.downloadOk = true) (ho : env.ocrResult = some ls)
    (hne : ls.isEmpty = false)
    (hdb : save_invoice env.databaseUrl env.dbWriteOk = true)
    (_hn : env.notifyOk = false) :
    (whatsapp_webhook env).1 =
      Resp.success (extract_invoice_data (ocrJoin ls) env.invUuid env.today).1
        (extract_invoice_data (ocrJoin ls) env.invUuid env.today).2.1
        (pdateStr (extract_invoice_data (ocrJoin ls) env.invUuid env.today).2.2) ∧
    (whatsapp_webhook { env with notifyOk := b }).1 = (whatsapp_webhook env).1 := by
  constructor
  · unfold whatsapp_webhook webhookTry
    simp [hm, hs, ht, hd, ho, hne, hdb]
  · rfl

/-- Witness for C5 at a concrete input. -/
theorem c5_notification_failure_witness :
    falsy ({ envA with notifyOk := false } : Env).mediaUrl = false ∧
    save_invoice ({ envA with notifyOk := false } : Env).databaseUrl
      ({ envA with notifyOk := false } : Env).dbWriteOk = true ∧
    ({ envA with notifyOk := false } : Env).notifyOk = false ∧
    ((whatsapp_webhook { envA with notifyOk := false }).1 =
      Resp.success
        (extract_invoice_data
          (ocrJoin ["Invoice #INV-55 Total Due: $250.00 Due by 01/05/2025"])
          ({ envA with notifyOk := false } : Env).invUuid
          ({ envA with notifyOk := false } : Env).today).1
        (extract_invoice_data
          (ocrJoin ["Invoice #INV-55 Total Due: $250.00 Due by 01/05/2025"])
          ({ envA with notifyOk := false } : Env).invUuid
          ({ envA with notifyOk := false } : Env).today).2.1
        (pdateStr (extract_invoice_data
          (ocrJoin ["Invoice #INV-55 Total Due: $250.00 Due by 01/05/2025"])
          ({ envA with notifyOk := false } : Env).invUuid
          ({ envA with notifyOk := false } : Env).today).2.2) ∧
     (whatsapp_webhook { { envA with notifyOk := false } with notifyOk := true }).1 =
       (whatsapp_webhook { envA with notifyOk := false }).1) :=
  ⟨by decide, by decide, by decide,
   c5_notification_failure { envA with notifyOk := false }
     ["Invoice #INV-55 Total Due: $250.00 Due by 01/05/2025"] true
     (by decide) (by decide) (by decide) (by decide) (by decide) (by decide)
     (by decide) (by decide)⟩

/-- C6: a request with no media reference (absent or empty MediaUrl0)
is rejected immediately with the 400 response and an empty event
trace: no external call is made and no scratch filename or file is
ever created. -/
theorem c6_no_media (env : Env) (h : falsy env.mediaUrl = true) :
    whatsapp_webhook env = (Resp.err 400 "No media found in the message.", []) := by
  unfold whatsapp_webhook
  simp [h]

/-- Witness for C6 at a concrete input. -/
theorem c6_no_media_witness :
    falsy ({ envA with mediaUrl := none } : Env).mediaUrl = true ∧
    whatsapp_webhook { envA with mediaUrl := none } =
      (Resp.err 400 "No media found in the message.", []) :=
  ⟨by decide, c6_no_media { envA with mediaUrl := none } (by decide)⟩

/-- Environment with messaging credentials present but the database
connection string absent: used to refute the claim that any missing
credential aborts before external calls. -/
def envC8 : Env := { envA with databaseUrl := none, ocrResult := some ["x"] }

/-- C8 counterexample: with the database connection string absent (a
required credential) but a media reference present, the pipeline still
performs the media download — an external call — and the failure only
surfaces afterwards as the 500 persistence error, refuting the claim
that the pipeline aborts before any external call when a required
credential is missing. -/
theorem c8_counterexample :
    (whatsapp_webhook envC8).1 =
      Resp.err 500 "Failed to save invoice data to database. Please try again later." ∧
    Ev.download ∈ (whatsapp_webhook envC8).2 := by
  constructor
  · decide
  · decide

/-- C8 (amended): with a media reference present, missing messaging
credentials produce the 500 configuration error before any external
call (no download, recognition, persistence or notification event),
and a missing database connection string never crashes but surfaces
only at the persistence step as the 500 persistence failure, after the
download and recognition already ran. -/
theorem c8_amended_config_errors (env : Env) (ls : List String)
    (hm : falsy env.mediaUrl = false) :
    ((falsy env.twilioSid = true ∨ falsy env.twilioToken = true) →
      (whatsapp_webhook env).1 =
        Resp.err 500 "Server configuration error. Please contact support." ∧
      Ev.download ∉ (whatsapp_webhook env).2 ∧
      Ev.ocr ∉ (whatsapp_webhook env).2 ∧
      Ev.dbSave ∉ (whatsapp_webhook env).2 ∧
      Ev.notify ∉ (whatsapp_webhook env).2) ∧
    (falsy env.databaseUrl = true →
      falsy env.twilioSid = false → falsy env.twilioToken = false →
      env.downloadOk = true → env.ocrResult = some ls → ls.isEmpty = false →
      (whatsapp_webhook env).1 =
        Resp.err 500 "Failed to save invoice data to database. Please try again later." ∧
      Ev.download ∈ (whatsapp_webhook env).2) := by
  constructor
  · intro hcred
    unfold whatsapp_webhook webhookTry
    rcases hcred with hc | hc <;> simp [hm, hc]
  · intro hdb hs ht hd ho hne
    unfold whatsapp_webhook webhookTry
    simp [hm, hs, ht, hd, ho, hne, save_invoice, hdb]

/-- Witness for the amended C8 at concrete inputs. -/
theorem c8_amended_config_errors_witness :
    ((whatsapp_webhook { envA with twilioSid := none }).1 =
       Resp.err 500 "Server configuration error. Please contact support." ∧
     Ev.download ∉ (whatsapp_webhook { envA with twilioSid := none }).2 ∧
     Ev.ocr ∉ (whatsapp_webhook { envA with twilioSid := none }).2 ∧
     Ev.dbSave ∉ (whatsapp_webhook { envA with twilioSid := none }).2 ∧
     Ev.notify ∉ (whatsapp_webhook { envA with twilioSid := none }).2) ∧
    ((whatsapp_webhook envC8).1 =
       Resp.err 500 "Failed to save invoice data to database. Please try again later." ∧
     Ev.download ∈ (whatsapp_webhook envC8).2) :=
  ⟨(c8_amended_config_errors { envA with twilioSid := none } ["x"] (by decide)).1
     (Or.inl (by decide)),
   (c8_amended_config_errors envC8 ["x"] (by decide)).2
     (by decide) (by decide) (by decide) (by decide) (by decide) (by decide)⟩

theorem scratchName_inj : Function.Injective scratchName := by
  intro u v h
  unfold scratchName at h
  have hd : ("/tmp/invoice_".data ++ u.data) ++ ".file".data =
      ("/tmp/invoice_".data ++ v.data) ++ ".file".data := by
    have h1 := congrArg String.data h
    simpa [String.data_append] using h1
  have h2 := List.append_cancel_left (List.append_cancel_right hd)
  exact congrArg String.mk h2

/-- C9: scratch filenames are built only from the per-request random
token: the construction is injective, so across N simultaneous
invocations pairwise distinct tokens give pairwise distinct staged
filenames, and the name never depends on user input (media URL or
sender). -/
theorem c9_distinct_scratch_names :
    (∀ toks : List String, toks.Nodup → (toks.map scratchName).Nodup) ∧
    (∀ (env : Env) (url : Option String) (sender : String),
      scratchName ({ env with mediaUrl := url, sender := sender } : Env).fileUuid =
        scratchName env.fileUuid) := by
  constructor
  · intro toks h
    exact h.map scratchName_inj
  · intro env url sender
    rfl

/-- Witness for C9 at a concrete input. -/
theorem c9_distinct_scratch_names_witness :
    (["aaaa", "bbbb", "cccc"] : List String).Nodup ∧
    ((["aaaa", "bbbb", "cccc"] : List String).map scratchName).Nodup ∧
    scratchName ({ envA with mediaUrl := some "other", sender := "other" } : Env).fileUuid =
      scratchName envA.fileUuid :=
  ⟨by decide,
   c9_distinct_scratch_names.1 ["aaaa", "bbbb", "cccc"] (by decide),
   c9_distinct_scratch_names.2 envA (some "other") "other"⟩

/-! ## Machinery for the due-date claims C7 and C10 -/

/-- Boolean check that, for each pattern of the list, the token of its
first match (when the pattern matches at all) satisfies `P`. -/
def matchedTokensOk (pats : List RE) (s : List Char) (P : List Char → Bool) : Bool :=
  pats.all fun p =>
    match research p s with
    | some tok => P tok
    | none => true

theorem matchedTokensOk_mono (pats : List RE) (s : List Char) (P Q : List Char → Bool)
    (hPQ : ∀ tok, P tok = true → Q tok = true)
    (h : matchedTokensOk pats s P = true) : matchedTokensOk pats s Q = true := by
  induction pats with
  | nil => rfl
  | cons p ps ih =>
    simp only [matchedTokensOk, List.all_cons, Bool.and_eq_true] at h ⊢
    refine ⟨?_, ih h.2⟩
    cases hr : research p s with
    | none => simp
    | some tok =>
      have := h.1
      rw [hr] at this
      simpa using hPQ tok this

theorem findDate_none_of_noParse (pats : List RE) (s : List Char)
    (h : matchedTokensOk pats s (fun tok => strptimeList tok == none) = true) :
    findDate pats s = none := by
  induction pats with
  | nil => rfl
  | cons p ps ih =>
    simp only [matchedTokensOk, List.all_cons, Bool.and_eq_true] at h
    unfold findDate
    cases hr : research p s with
    | none => exact ih h.2
    | some tok =>
      have h1 := h.1
      rw [hr] at h1
      have h2 : strptimeList tok = none := by simpa using h1
      dsimp only
      rw [h2]
      exact ih h.2

/-- Inverse of `splitSep`: re-join chunks with the separator. -/
def joinSep (sep : Char) : List (List Char) → List Char
  | [] => []
  | [a] => a
  | a :: b :: t => a ++ sep :: joinSep sep (b :: t)

theorem splitSep_ne_nil (sep : Char) (l : List Char) : splitSep sep l ≠ [] := by
  cases l with
  | nil => simp [splitSep]
  | cons c rest =>
    unfold splitSep
    by_cases hc : c = sep
    · simp [hc]
    · simp only [hc, if_false]
      cases splitSep sep rest <;> simp

theorem joinSep_cons_cons (sep : Char) (c : Char) (h : List Char) (t : List (List Char)) :
    joinSep sep ((c :: h) :: t) = c :: joinSep sep (h :: t) := by
  cases t <;> simp [joinSep]

theorem joinSep_splitSep (sep : Char) (l : List Char) :
    joinSep sep (splitSep sep l) = l := by
  induction l with
  | nil => rfl
  | cons c rest ih =>
    unfold splitSep
    by_cases hc : c = sep
    · simp only [hc, if_true]
      cases hs : splitSep sep rest with
      | nil => exact absurd hs (splitSep_ne_nil sep rest)
      | cons h t =>
        rw [hs] at ih
        simp [joinSep, ih, hc]
    · simp only [hc, if_false]
      cases hs : splitSep sep rest with
      | nil => exact absurd hs (splitSep_ne_nil sep rest)
      | cons h t =>
        rw [hs] at ih
        rw [joinSep_cons_cons, ih]

theorem splitSep_no_sep (sep : Char) (l : List Char) :
    ∀ part ∈ splitSep sep l, sep ∉ part := by
  induction l with
  | nil =>
    intro part hp
    simp only [splitSep, List.mem_singleton] at hp
    simp [hp]
  | cons c rest ih =>
    intro part hp
    unfold splitSep at hp
    by_cases hc : c = sep
    · simp only [hc, if_true, List.mem_cons] at hp
      rcases hp with hp | hp
      · simp [hp]
      · exact ih part hp
    · simp only [hc, if_false] at hp
      cases hs : splitSep sep rest with
      | nil => exact absurd hs (splitSep_ne_nil sep rest)
      | cons h t =>
        rw [hs] at hp
        simp only [List.mem_cons] at hp
        rcases hp with hp | hp
        · subst hp
          intro hmem
          rcases List.mem_cons.mp hmem with h1 | h1
          · exact hc h1.symm
          · exact ih h (by rw [hs]; exact List.mem_cons_self h t) h1
        · exact ih part (by rw [hs]; exact List.mem_cons_of_mem h hp)

/-- Length of the trailing digit run of a token (its year field when
the token has the captured date shape). -/
def yearRun (tok : List Char) : Nat :=
  (tok.reverse.takeWhile digitChar).length

theorem takeWhile_append_stop (p : Char → Bool) (l : List Char) (y : Char) (r : List Char)
    (hl : ∀ x ∈ l, p x = true) (hy : p y = false) :
    (l ++ y :: r).takeWhile p = l := by
  induction l with
  | nil => simp [List.takeWhile_cons, hy]
  | cons c cs ih =>
    have hc : p c = true := hl c (List.mem_cons_self c cs)
    simp only [List.cons_append, List.takeWhile_cons, hc, if_true]
    rw [ih (fun x hx => hl x (List.mem_cons_of_mem c hx))]

theorem parseYear4_props (s : List Char) (y : Nat) (h : parseYear4 s = some y) :
    s.length = 4 ∧ ∀ x ∈ s, digitChar x = true := by
  unfold parseYear4 at h
  split at h
  · rename_i hcond
    simp only [Bool.and_eq_true, List.all_eq_true, decide_eq_true_eq] at hcond
    exact ⟨hcond.2, hcond.1⟩
  · exact absurd h (by simp)

theorem parseDateFmt_yearRun (sep : Char) (df : Bool) (tok : List Char) (d : PDate)
    (hsep : digitChar sep = false)
    (h : parseDateFmt sep df tok = some d) : yearRun tok = 4 := by
  unfold parseDateFmt at h
  split at h
  · rename_i f1 f2 f3 hsplit
    split at h
    · rename_i dd mm yy hd hm hy
      have hf3 := parseYear4_props f3 yy hy
      have htok : tok = f1 ++ sep :: (f2 ++ sep :: f3) := by
        have := joinSep_splitSep sep tok
        rw [hsplit] at this
        simp only [joinSep] at this
        exact this.symm
      have hrev : tok.reverse = f3.reverse ++ sep :: (f2.reverse ++ sep :: f1.reverse) := by
        subst htok
        simp
      unfold yearRun
      rw [hrev, takeWhile_append_stop digitChar f3.reverse sep _
        (fun x hx => hf3.2 x (List.mem_reverse.mp hx)) hsep]
      simpa using hf3.1
    · exact absurd h (by simp)
  · exact absurd h (by simp)

theorem parseDateFmt_none_of_yearRun (sep : Char) (df : Bool) (tok : List Char)
    (hsep : digitChar sep = false) (h : yearRun tok ≠ 4) :
    parseDateFmt sep df tok = none := by
  cases hp : parseDateFmt sep df tok with
  | none => rfl
  | some d => exact absurd (parseDateFmt_yearRun sep df tok d hsep hp) h

theorem strptimeList_none_of_yearRun (tok : List Char) (h : yearRun tok ≠ 4) :
    strptimeList tok = none := by
  simp only [strptimeList, dateFormats, strptimeFmts,
    parseDateFmt_none_of_yearRun '/' true tok (by decide) h,
    parseDateFmt_none_of_yearRun '/' false tok (by decide) h,
    parseDateFmt_none_of_yearRun '-' true tok (by decide) h,
    parseDateFmt_none_of_yearRun '-' false tok (by decide) h,
    parseDateFmt_none_of_yearRun '.' true tok (by decide) h,
    parseDateFmt_none_of_yearRun '.' false tok (by decide) h]

/-- C7 counterexample: the claim quantifies over every text containing
"Due Date: 15/03/2024", but in this text the highest-priority due-date
regex first matches the earlier token 01/01/2020 (the date and by
labels are optional), so the extracted due date is 2020-01-01 and not
2024-03-15. -/
theorem c7_counterexample :
    (∃ a b : String,
      "Due 01/01/2020 Due Date: 15/03/2024" = a ++ "Due Date: 15/03/2024" ++ b) ∧
    (extract_invoice_data "Due 01/01/2020 Due Date: 15/03/2024" "ab12cd34"
      ⟨2025, 10, 12⟩).2.2 = ⟨2020, 1, 1⟩ ∧
    (extract_invoice_data "Due 01/01/2020 Due Date: 15/03/2024" "ab12cd34"
      ⟨2025, 10, 12⟩).2.2 ≠ ⟨2024, 3, 15⟩ := by
  refine ⟨⟨"Due 01/01/2020 ", "", by decide⟩, by with_unfolding_all decide,
    by with_unfolding_all decide⟩

/-- C7 (amended): whenever the first due-date pattern captures exactly
the token 15/03/2024 — as it does for any text where that token is its
first match, e.g. "Due Date: 15/03/2024" — the extracted due date is
2024-03-15 (the day-first layout is tried first); and whenever every
matched due-date token fails all candidate layouts, the due date is
the processing date. -/
theorem c7_due_date_dayfirst (text uuidHex : String) (today : PDate) :
    (research datePat1 text.data = some "15/03/2024".data →
      (extract_invoice_data text uuidHex today).2.2 = ⟨2024, 3, 15⟩) ∧
    (matchedTokensOk datePatterns text.data (fun tok => strptimeList tok == none) = true →
      (extract_invoice_data text uuidHex today).2.2 = today) := by
  constructor
  · intro h
    show (findDate datePatterns text.data).getD today = _
    have hs : strptimeList ("15/03/2024".data) = some ⟨2024, 3, 15⟩ := by decide
    simp only [datePatterns, findDate, h, hs]
    rfl
  · intro h
    show (findDate datePatterns text.data).getD today = today
    rw [findDate_none_of_noParse datePatterns text.data h]
    rfl

/-- Witness for the amended C7 at concrete inputs. -/
theorem c7_due_date_dayfirst_witness :
    ((extract_invoice_data "Due Date: 15/03/2024" "ab12cd34" ⟨2025, 10, 12⟩).2.2 =
      ⟨2024, 3, 15⟩) ∧
    ((extract_invoice_data "Due 99/99/9999 today" "ab12cd34" ⟨2025, 10, 12⟩).2.2 =
      ⟨2025, 10, 12⟩) :=
  ⟨(c7_due_date_dayfirst "Due Date: 15/03/2024" "ab12cd34" ⟨2025, 10, 12⟩).1
     (by with_unfolding_all decide),
   (c7_due_date_dayfirst "Due 99/99/9999 today" "ab12cd34" ⟨2025, 10, 12⟩).2
     (by with_unfolding_all decide)⟩

/-- C10: although the due-date regexes capture year fields of two,
three, or four digits, every strptime layout uses a four-digit year,
so for every text whose matched due-date tokens all have a trailing
digit run (year field) of length two or three, no layout parses and
the due date is the processing date. -/
theorem c10_short_year_fallback (text uuidHex : String) (today : PDate)
    (h : matchedTokensOk datePatterns text.data
      (fun tok => yearRun tok == 2 || yearRun tok == 3) = true) :
    findDate datePatterns text.data = none ∧
    (extract_invoice_data text uuidHex today).2.2 = today := by
  have hnone : findDate datePatterns text.data = none := by
    apply findDate_none_of_noParse
    apply matchedTokensOk_mono datePatterns text.data _ _ _ h
    intro tok htok
    simp only [Bool.or_eq_true, beq_iff_eq] at htok
    have : yearRun tok ≠ 4 := by omega
    simp [strptimeList_none_of_yearRun tok this]
  refine ⟨hnone, ?_⟩
  show (findDate datePatterns text.data).getD today = today
  rw [hnone]
  rfl

/-- Witness for C10 at a concrete input. -/
theorem c10_short_year_fallback_witness :
    matchedTokensOk datePatterns ("Due: 01/05/25".data)
      (fun tok => yearRun tok == 2 || yearRun tok == 3) = true ∧
    (findDate datePatterns ("Due: 01/05/25".data) = none ∧
     (extract_invoice_data "Due: 01/05/25" "ab12cd34" ⟨2025, 10, 12⟩).2.2 =
       ⟨2025, 10, 12⟩) :=
  ⟨by with_unfolding_all decide,
   c10_short_year_fallback "Due: 01/05/25" "ab12cd34" ⟨2025, 10, 12⟩
     (by with_unfolding_all decide)⟩

end WhatsappInvoice
